import Mathlib

/-!
Verification development for the saleshub automation backend.

The repository drives a browser against the Ookla Cell Analytics dashboard.
The definitions below are a shallow embedding of its pure decision logic and
of the observable traces of its handlers, taken from the current (most
capable) revision of server.js (lines 1161-3053), routes/romRoutes.js with
its streaming revision, services/romAutomation.js and
services/ooklaHelpers.js.  Browser and DOM effects are abstracted into
oracles (which resolution attempts succeed) and action traces; every branch
and emitted value mirrors the source.
-/

namespace SalesHub

/-! ### A small model of JSON/JS values appearing in request bodies -/

/-- JS runtime values as they occur in the request payloads. -/
inductive JsValue where
  | str (s : String)
  | num (n : Int)
  | jbool (b : Bool)
  | arr (elems : List JsValue)
  | nullv
  | undef

mutual

/-- Structural equality test on JS values, paired with the list version. -/
def jsBeq : JsValue → JsValue → Bool
  | .str a, .str b => a == b
  | .num a, .num b => a == b
  | .jbool a, .jbool b => a == b
  | .nullv, .nullv => true
  | .undef, .undef => true
  | .arr a, .arr b => jsBeqList a b
  | _, _ => false

/-- Elementwise equality test on lists of JS values. -/
def jsBeqList : List JsValue → List JsValue → Bool
  | [], [] => true
  | x :: xs, y :: ys => jsBeq x y && jsBeqList xs ys
  | _, _ => false

end

instance : BEq JsValue := ⟨jsBeq⟩

/-- JS truthiness: empty string, 0, false, null and undefined are falsy. -/
def jsTruthy : JsValue → Bool
  | .str s => !(s == "")
  | .num n => !(n == 0)
  | .jbool b => b
  | .arr _ => true
  | .nullv => false
  | .undef => false

/-- How Array.prototype.join renders one element: null and undefined render
empty, nested arrays join with a comma, other primitives stringify. -/
def jsJoinElem : JsValue → String
  | .str s => s
  | .num n => toString n
  | .jbool b => cond b "true" "false"
  | .nullv => ""
  | .undef => ""
  | .arr xs => String.intercalate "," (xs.attach.map (fun x => jsJoinElem x.1))
termination_by v => sizeOf v
decreasing_by
  simp_wf
  have h := List.sizeOf_lt_of_mem x.2
  omega

/-- The strict-equality membership test used by validCarriers.includes(c):
a JS value strictly equals a string literal only when it is that string. -/
def jsIncludesStr (xs : List String) (v : JsValue) : Bool :=
  xs.any (fun s => v == .str s)

/-! ### validateRequest (services/romAutomation.js lines 269-290) -/

/-- Valid carrier names, from validateRequest. -/
def validCarriers : List String := ["AT&T", "Verizon", "T-Mobile"]

/-- Error literal pushed when the address check fails. -/
def addressRequiredMsg : String :=
  "Address is required and must be a non-empty string"

/-- Error literal pushed when the carriers shape check fails. -/
def carriersRequiredMsg : String :=
  "Carriers is required and must be a non-empty array"

/-- Error built for invalid carrier entries, mirroring the template literal
with invalidCarriers.join and validCarriers.join. -/
def invalidCarriersMsg (invalid : List JsValue) : String :=
  "Invalid carriers: " ++ String.intercalate ", " (invalid.map jsJoinElem) ++
    ". Valid options: " ++ String.intercalate ", " validCarriers

/-- The trim of address.trim(): strip leading and trailing whitespace. -/
def jsTrim (s : String) : String :=
  String.mk (((s.data.dropWhile Char.isWhitespace).reverse.dropWhile Char.isWhitespace).reverse)

/-- The address guard of validateRequest: !address, typeof address !==
string, or address.trim().length === 0. -/
def addressBad : JsValue → Bool
  | .str s => (s == "") || ((jsTrim s).length == 0)
  | _ => true

/-- The carriers shape guard of validateRequest: !carriers,
!Array.isArray(carriers), or carriers.length === 0. -/
def carriersBadShape : JsValue → Bool
  | .arr xs => xs.length == 0
  | _ => true

/-- Result shape of validateRequest. -/
structure ValidationOutcome where
  isValid : Bool
  errors : List String
  deriving DecidableEq

/-- validateRequest from services/romAutomation.js: collects an error for a
bad address, an error for a bad carriers shape, else an error listing the
carriers outside the valid enumeration; valid when no errors collected. -/
def validateRequest (address carriers : JsValue) : ValidationOutcome :=
  let errsAddr : List String :=
    if addressBad address then [addressRequiredMsg] else []
  let errsCarr : List String :=
    if carriersBadShape carriers then [carriersRequiredMsg]
    else
      match carriers with
      | .arr xs =>
          let invalid := xs.filter (fun c => !(jsIncludesStr validCarriers c))
          if invalid.length > 0 then [invalidCarriersMsg invalid] else []
      | _ => []
  { isValid := (errsAddr ++ errsCarr).length == 0,
    errors := errsAddr ++ errsCarr }

/-! ### Address sanitisation and artifact filenames -/

/-- ASCII letter-or-digit test, the complement of the character class
replaced in address.replace with underscore. -/
def isAsciiAlphanumChar (c : Char) : Bool :=
  (('a' ≤ c) && (c ≤ 'z')) || (('A' ≤ c) && (c ≤ 'Z')) ||
    (('0' ≤ c) && (c ≤ '9'))

/-- sanitizedAddress from server.js line 2728 and romAutomation.js line 71:
replace every character outside a-zA-Z0-9 with an underscore, then keep the
first 50 characters. -/
def sanitizeAddress (s : String) : String :=
  String.mk ((s.data.map (fun c => if isAsciiAlphanumChar c then c else '_')).take 50)

/-- Screenshot artifact: filename plus its view tag.  The binary payload and
size of the real artifact are runtime pixels and are abstracted away. -/
structure Artifact where
  filename : String
  viewType : String
  deriving DecidableEq

/-- Filename built by the coverage-plot takeScreenshot (server.js line 2727
and 1563) for a view type, sanitised address and timestamp. -/
def coverageScreenshotFilename (viewType address timestamp : String) : String :=
  "ookla_" ++ viewType ++ "_" ++ sanitizeAddress address ++ "_" ++ timestamp ++ ".png"

/-- Filename built by the shared takeScreenshot in ooklaHelpers.js line 764,
whose callers pass view types rom_INDOOR and rom_OUTDOOR. -/
def romScreenshotFilename (viewType address timestamp : String) : String :=
  viewType ++ "_" ++ sanitizeAddress address ++ "_" ++ timestamp ++ ".png"

/-! ### randomDelay (ooklaHelpers.js lines 12-14, server.js lines 1216-1218) -/

/-- randomDelay with the Math.random sample made explicit: the sample r is a
number in the interval from 0 inclusive to 1 exclusive, and the result is
Math.floor of r times (max - min + 1), plus min. -/
def randomDelay (r : ℚ) (min max : Int) : Int :=
  ⌊r * ((max : ℚ) - (min : ℚ) + 1)⌋ + min

/-! ### selectView retry traces

Two revisions of selectView live in the repository.  The one in
services/ooklaHelpers.js (lines 465-623, used by the ROM service) and the
one in server.js (lines 1260-1539, used by the coverage-plot endpoints).
Both loop over attempts 1..3; the DOM search inside one attempt is
abstracted into an oracle succ saying whether attempt i resolves the view.
The UI actions surrounding the attempts are kept. -/

/-- Page-level UI actions performed by selectView around its attempts. -/
inductive UiAct where
  | wait (ms : Nat)
  | keyEscape
  | mouseClick (x y : Nat)
  | attemptResolve (i : Nat)
  | networkIdleWait
  deriving DecidableEq

/-- Reset actions run at the top of attempts 2 and 3 in the
ooklaHelpers.js revision: a 2000 ms cooldown, Escape, 500 ms wait. -/
def svResetHelpers : List UiAct := [.wait 2000, .keyEscape, .wait 500]

/-- Reset actions run at the top of attempts 2 and 3 in the server.js
revision: cooldown, Escape, wait, then a click at the neutral point
(100, 100) to reset focus, then another wait. -/
def svResetServer : List UiAct :=
  [.wait 2000, .keyEscape, .wait 500, .mouseClick 100 100, .wait 500]

/-- Actions after a successful option click: settle wait, bounded
network-idle wait, final wait (both revisions). -/
def svSuccessTail : List UiAct := [.wait 2000, .networkIdleWait, .wait 1000]

/-- Actions in the catch block after a failed attempt: Escape and a 500 ms
wait (both revisions). -/
def svCatchTail : List UiAct := [.keyEscape, .wait 500]

/-- The attempt loop shared by both selectView revisions, parameterised by
the between-attempt reset actions: runs attempts while fuel remains, stops
with true on the first attempt the oracle resolves, and returns false after
the last failed attempt instead of throwing. -/
def selectViewLoop (reset : List UiAct) (succ : Nat → Bool) :
    Nat → Nat → Bool × List UiAct
  | 0, _ => (false, [])
  | rem + 1, i =>
    let pre := (if 1 < i then reset else []) ++ [.wait 1000, .attemptResolve i]
    if succ i then (true, pre ++ svSuccessTail)
    else if rem == 0 then (false, pre ++ svCatchTail)
    else
      let r := selectViewLoop reset succ rem (i + 1)
      (r.1, pre ++ svCatchTail ++ r.2)

/-- selectView as in services/ooklaHelpers.js: 3 attempts, helper reset. -/
def selectViewHelpers (succ : Nat → Bool) : Bool × List UiAct :=
  selectViewLoop svResetHelpers succ 3 1

/-- selectView as in server.js (the revision used by the streaming and
synchronous coverage endpoints): 3 attempts, server reset with the neutral
click. -/
def selectViewServer (succ : Nat → Bool) : Bool × List UiAct :=
  selectViewLoop svResetServer succ 3 1

/-- The attempt indices appearing in a trace, in order. -/
def attemptsOf (tr : List UiAct) : List Nat :=
  tr.filterMap (fun a => match a with | .attemptResolve i => some i | _ => none)

/-- Recognises the neutral reset click. -/
def isNeutralClick : UiAct → Bool
  | .mouseClick _ _ => true
  | _ => false

/-! ### Screenshot capture phase of POST /api/automate
(server.js lines 2720-2993) -/

/-- Degrade record logged when an optional view cannot be selected. -/
def skipMsg (view : String) : String :=
  "Skipping " ++ view ++ " screenshot - view selection failed"

/-- The screenshot phase of the synchronous coverage endpoint.  For each
requested view: if selectView succeeds an artifact is captured and pushed,
otherwise the view is skipped and the degrade is recorded.  The
Indoor and Outdoor combined view tries several option-name variants through
selectView; selBoth is the outcome of that whole intent.  Returns the
ordered artifacts and the recorded degrades. -/
def captureViews (hasIndoor hasOutdoor hasBoth : Bool)
    (selIndoor selOutdoor selBoth : Bool) (address timestamp : String) :
    List Artifact × List String :=
  let indoor : List Artifact × List String :=
    if hasIndoor then
      if selIndoor then
        ([⟨coverageScreenshotFilename "INDOOR" address timestamp, "INDOOR"⟩], [])
      else ([], [skipMsg "Indoor"])
    else ([], [])
  let outdoor : List Artifact × List String :=
    if hasOutdoor then
      if selOutdoor then
        ([⟨coverageScreenshotFilename "OUTDOOR" address timestamp, "OUTDOOR"⟩], [])
      else ([], [skipMsg "Outdoor"])
    else ([], [])
  let both : List Artifact × List String :=
    if hasBoth then
      if selBoth then
        ([⟨coverageScreenshotFilename "OUTDOOR_INDOOR" address timestamp, "OUTDOOR_INDOOR"⟩], [])
      else ([], [skipMsg "Indoor & Outdoor"])
    else ([], [])
  (indoor.1 ++ outdoor.1 ++ both.1, indoor.2 ++ outdoor.2 ++ both.2)

/-! ### The synchronous POST /api/automate handler
(server.js lines 2296-3032) -/

/-- Coarse-grained actions of the synchronous handler, in program order. -/
inductive ServerAct where
  | launchBrowser
  | navigateLogin
  | typeCredentials
  | submitLogin
  | closeBrowser
  | respond (status : Nat)
  deriving DecidableEq

/-- The JSON body the synchronous handler responds with, together with the
HTTP status.  Responses that carry no screenshots or count leave those
fields empty. -/
structure AutomateResponse where
  status : Nat
  success : Bool
  error : Option String
  screenshots : List Artifact
  count : Option Nat
  deriving DecidableEq

/-- The synchronous /api/automate handler: reject with 400 when the address
is missing or falsy before any browser is launched; otherwise launch, log
in, and if the page is still on the login URL close the browser and respond
401 Login failed; otherwise run the capture phase, close the browser and
respond with the success body.  loginOk abstracts the still-on-login-URL
check; the three sel oracles abstract the selectView outcomes.  Returns the
action trace, the response, and the recorded degrades. -/
def automateHandler (address : Option String) (loginOk : Bool)
    (hasIndoor hasOutdoor hasBoth selIndoor selOutdoor selBoth : Bool)
    (timestamp : String) :
    List ServerAct × AutomateResponse × List String :=
  match address with
  | none =>
      ([.respond 400],
       { status := 400, success := false, error := some "Address is required",
         screenshots := [], count := none }, [])
  | some a =>
      if a == "" then
        ([.respond 400],
         { status := 400, success := false, error := some "Address is required",
           screenshots := [], count := none }, [])
      else
        let pre : List ServerAct :=
          [.launchBrowser, .navigateLogin, .typeCredentials, .submitLogin]
        if !loginOk then
          (pre ++ [.closeBrowser, .respond 401],
           { status := 401, success := false, error := some "Login failed",
             screenshots := [], count := none }, [])
        else
          let cap := captureViews hasIndoor hasOutdoor hasBoth
            selIndoor selOutdoor selBoth a timestamp
          (pre ++ [.closeBrowser, .respond 200],
           { status := 200, success := true, error := none,
             screenshots := cap.1, count := some cap.1.length }, cap.2)

/-- Contiguous sublist test: does the needle occur inside the haystack. -/
def hasSubList (needle : List Char) : List Char → Bool
  | [] => needle.isEmpty
  | c :: rest => needle.isPrefixOf (c :: rest) || hasSubList needle rest

/-- Substring membership test on the underlying character lists. -/
def strMentionsSub (hay needle : String) : Bool :=
  hasSubList needle.data hay.data

/-- Whether a response error message refers to the authentication step: the
code reports login failure as Login failed. -/
def mentionsAuthentication (s : String) : Bool :=
  strMentionsSub s "Login" || strMentionsSub s "login" || strMentionsSub s "auth"

/-! ### Server-sent event frames

One record per data frame written to the event stream; a field is none when
the corresponding JSON key is absent from that frame. -/

/-- One SSE data frame, as the union of the keys the two streaming
endpoints ever write. -/
structure SseEvent where
  progress : Option ℚ := none
  step : Option String := none
  status : Option String := none
  final : Option Bool := none
  success : Option Bool := none
  error : Option String := none
  count : Option Nat := none
  screenshots : Option (List Artifact) := none
  excelFiles : Option (List String) := none
  duration : Option ℚ := none
  deriving DecidableEq

/-- A frame written by sendProgress of server.js line 1577: progress, step
and status only. -/
def progressEvt (p : ℚ) (s st : String) : SseEvent :=
  { progress := some p, step := some s, status := some st }

/-! ### POST /api/automate/stream event traces
(server.js lines 1583-2293) -/

/-- The sendProgress frames emitted before the screenshot phase of a run
that passes login, in program order. -/
def coverageStreamPrelude : List SseEvent :=
  [progressEvt 0 "Initializing browser..." "in_progress",
   progressEvt 5 "Navigating to login page..." "in_progress",
   progressEvt 10 "Entering credentials..." "in_progress",
   progressEvt 15 "Logging in..." "in_progress",
   progressEvt 20 "Login successful!" "in_progress",
   progressEvt 22 "Changing to day view..." "in_progress",
   progressEvt 28 "Entering address..." "in_progress",
   progressEvt 38 "Opening network provider..." "in_progress",
   progressEvt 48 "Configuring carriers..." "in_progress",
   progressEvt 58 "Opening LTE options..." "in_progress",
   progressEvt 68 "Selecting RSRP..." "in_progress",
   progressEvt 75 "Preparing screenshots..." "in_progress"]

/-- A capture-progress frame: screenshotCount is incremented before the
emit, and the progress is 75 plus the completed fraction of a 20-point
band shared by the requested captures. -/
def captureEvt (label : String) (k total : Nat) : SseEvent :=
  progressEvt (75 + ((k : ℚ) / (total : ℚ)) * 20)
    ("Capturing " ++ label ++ " (" ++ toString k ++ "/" ++ toString total ++ ")...")
    "in_progress"

/-- The capture-progress frames of the streaming endpoint; one frame per
requested view, emitted before its selectView call regardless of outcome. -/
def coverageCaptureEvents (hasIndoor hasOutdoor hasBoth : Bool) : List SseEvent :=
  let total := (cond hasIndoor 1 0) + (cond hasOutdoor 1 0) + (cond hasBoth 1 0)
  (if hasIndoor then [captureEvt "indoor view" 1 total] else []) ++
  (if hasOutdoor then
     [captureEvt "outdoor view" ((cond hasIndoor 1 0) + 1) total] else []) ++
  (if hasBoth then
     [captureEvt "indoor & outdoor view"
       ((cond hasIndoor 1 0) + (cond hasOutdoor 1 0) + 1) total] else [])

/-- All sendProgress frames of a fully successful streaming run, ending in
the Complete frame with status success. -/
def coverageProgressFrames (hasIndoor hasOutdoor hasBoth : Bool) : List SseEvent :=
  coverageStreamPrelude ++ coverageCaptureEvents hasIndoor hasOutdoor hasBoth ++
  [progressEvt 98 "Finalizing..." "in_progress",
   progressEvt 100 "Complete!" "success"]

/-- The last frame of a successful streaming run: the response object
spread together with final true; it carries no progress, step or status
key (server.js lines 2272-2278). -/
def coverageStreamFinalFrame (arts : List Artifact) (dur : ℚ) : SseEvent :=
  { success := some true, screenshots := some arts, duration := some dur,
    count := some arts.length, final := some true }

/-- Event trace of a successful streaming run. -/
def coverageStreamSuccessEvents (hasIndoor hasOutdoor hasBoth : Bool)
    (arts : List Artifact) (dur : ℚ) : List SseEvent :=
  coverageProgressFrames hasIndoor hasOutdoor hasBoth ++
    [coverageStreamFinalFrame arts dur]

/-- Event trace when the page is still on the login URL after submitting:
the four pre-login frames then the Login failed frame with status error at
progress 15 (server.js lines 1683-1688). -/
def coverageStreamLoginRejectedEvents : List SseEvent :=
  coverageStreamPrelude.take 4 ++ [progressEvt 15 "Login failed" "error"]

/-- Event trace when the run throws after k frames were emitted: the catch
block closes the browser and emits one frame with progress 0, the message
as step, and status error, with no final marker and no result
(server.js lines 2281-2292). -/
def coverageStreamErrorEvents (hasIndoor hasOutdoor hasBoth : Bool)
    (k : Nat) (msg : String) : List SseEvent :=
  (coverageProgressFrames hasIndoor hasOutdoor hasBoth).take k ++
    [progressEvt 0 msg "error"]

/-- Frame emitted when the streaming endpoint rejects a missing address
(server.js lines 1596-1600). -/
def coverageStreamMissingAddressEvents : List SseEvent :=
  [progressEvt 0 "Error: Address is required" "error"]

/-- The guard of the streaming endpoint: the missing-address check runs
before chromium.launch; the boolean says whether execution reaches the
launch statement, and the events are those emitted when it does not. -/
def coverageStreamGuard (address : Option String) : Bool × List SseEvent :=
  match address with
  | none => (false, coverageStreamMissingAddressEvents)
  | some a =>
      if a == "" then (false, coverageStreamMissingAddressEvents)
      else (true, [])

/-! ### POST /api/rom/automate/stream event traces
(romRoutes streaming revision plus executeRomAutomationStream,
services/romAutomation.js lines 152-262) -/

/-- Frames emitted through emit, which spreads status processing into
every non-final frame of the ROM service, in program order. -/
def romStreamProgressFrames : List SseEvent :=
  [progressEvt 5 "Initializing..." "processing",
   progressEvt 10 "Opening browser..." "processing",
   progressEvt 15 "Logging in..." "processing",
   progressEvt 22 "Selecting day view..." "processing",
   progressEvt 28 "Entering address..." "processing",
   progressEvt 35 "Opening network provider..." "processing",
   progressEvt 45 "Configuring carriers..." "processing",
   progressEvt 55 "Opening LTE section..." "processing",
   progressEvt 65 "Selecting RSRP..." "processing",
   progressEvt 70 "Preparing screenshots..." "processing",
   progressEvt 75 "Capturing indoor view..." "processing",
   progressEvt 85 "Capturing outdoor view..." "processing"]

/-- Final frame of a successful ROM streaming run: sent directly through
sendProgress, so it has progress and step but no status key, and carries
final true with the full result (romAutomation.js lines 231-238). -/
def romStreamFinalEvent (arts : List Artifact) (dur : ℚ) : SseEvent :=
  { progress := some 100, step := some "Complete", final := some true,
    success := some true, screenshots := some arts, excelFiles := some [],
    duration := some dur, count := some arts.length }

/-- Event trace of a successful ROM streaming run. -/
def romStreamSuccessEvents (arts : List Artifact) (dur : ℚ) : List SseEvent :=
  romStreamProgressFrames ++ [romStreamFinalEvent arts dur]

/-- Terminal frame the ROM service emits in its catch block before
rethrowing: progress 0, final true, the error message, no status key
(romAutomation.js lines 255-259). -/
def romServiceErrorEvent (msg : String) : SseEvent :=
  { progress := some 0, step := some "Error", final := some true,
    success := some false, error := some msg }

/-- Terminal frame the ROM route emits when the rethrown error reaches its
catch: like the service frame but with status error. -/
def romRouteErrorEvent (msg : String) : SseEvent :=
  { progress := some 0, step := some "Error", final := some true,
    success := some false, error := some msg, status := some "error" }

/-- Event trace of a ROM streaming run that throws after k frames: the
service emits its terminal frame, rethrows, and the route emits a second
terminal frame. -/
def romStreamErrorEvents (k : Nat) (msg : String) : List SseEvent :=
  romStreamProgressFrames.take k ++
    [romServiceErrorEvent msg, romRouteErrorEvent msg]

/-- Frame the ROM streaming route emits when validation fails, carrying the
joined error list (romRoutes streaming revision lines 133-143). -/
def romStreamValidationEvents (errs : List String) : List SseEvent :=
  [{ progress := some 0, step := some "Validation failed", final := some true,
     success := some false, error := some (String.intercalate "; " errs),
     status := some "error" }]

/-- Guard of the ROM streaming route: validateRequest runs before the
service (and hence before any browser) is invoked; the boolean says whether
the service is reached. -/
def romStreamGuard (address carriers : JsValue) : Bool × List SseEvent :=
  if (validateRequest address carriers).isValid then (true, [])
  else (false, romStreamValidationEvents (validateRequest address carriers).errors)

/-- Guard of the synchronous ROM route (romRoutes.js lines 56-64):
validation failure responds 400 with success false before
executeRomAutomation (and hence any browser) is invoked. -/
def romAutomateGuard (address carriers : JsValue) : Bool × AutomateResponse :=
  if (validateRequest address carriers).isValid then
    (true, { status := 200, success := true, error := none,
             screenshots := [], count := none })
  else
    (false, { status := 400, success := false, error := some "Validation failed",
              screenshots := [], count := none })

/-! ### The route table of the current server revision -/

/-- Every route the current server revision registers, as method and path
pairs (server.js lines 1186-1212, 1583, 2296 and the ROM router). -/
def registeredRoutes : List (String × String) :=
  [("GET", "/health"), ("GET", "/"),
   ("POST", "/api/rom/automate"), ("POST", "/api/rom/automate/stream"),
   ("GET", "/api/rom/health"),
   ("POST", "/api/automate/stream"), ("POST", "/api/automate")]

/-- The keys of the JSON body of a successful synchronous automation
response (server.js lines 3011-3016). -/
def automateSuccessResponseKeys : List String :=
  ["success", "screenshots", "duration", "count"]

/-- The progress values carried by a list of frames, in order. -/
def progressValues (evts : List SseEvent) : List ℚ :=
  evts.filterMap (fun e => e.progress)

/-- Boolean monotone non-decrease test on a list of rationals. -/
def nondecr : List ℚ → Bool
  | [] => true
  | [_] => true
  | a :: b :: t => decide (a ≤ b) && nondecr (b :: t)

/-! ## Supporting lemmas -/

lemma string_length_zero_iff (s : String) : s.length = 0 ↔ s = "" := by
  cases s with
  | mk data => simp [String.length, String.ext_iff]

lemma addressBad_false_iff (a : JsValue) :
    addressBad a = false ↔ ∃ s, a = JsValue.str s ∧ jsTrim s ≠ "" := by
  cases a <;> simp [addressBad]
  case str s =>
    constructor
    · rintro ⟨-, h2⟩ h
      exact h2 (by rw [h]; rfl)
    · intro h
      refine ⟨fun hs => h ?_, fun hl => h ((string_length_zero_iff _).mp hl)⟩
      rw [hs]; rfl

lemma jsIncludesStr_validCarriers (x : JsValue) :
    jsIncludesStr validCarriers x =
      (x == JsValue.str "AT&T" || x == JsValue.str "Verizon" ||
        x == JsValue.str "T-Mobile") := by
  simp [jsIncludesStr, validCarriers, Bool.or_assoc]

lemma validateRequest_undef_invalid (c : JsValue) :
    (validateRequest JsValue.undef c).isValid = false := by
  simp [validateRequest, addressBad]

lemma bool_imp_or_iff (a b c : Bool) :
    (a = false → b = false → c = true) ↔ ((a = true ∨ b = true) ∨ c = true) := by
  cases a <;> cases b <;> cases c <;> simp

lemma nondecr_append_left :
    ∀ (l₁ l₂ : List ℚ), nondecr (l₁ ++ l₂) = true → nondecr l₁ = true
  | [], _, _ => rfl
  | [_], _, _ => rfl
  | a :: b :: t, l₂, h => by
      rw [List.cons_append, List.cons_append] at h
      rw [nondecr] at h ⊢
      rw [Bool.and_eq_true] at h ⊢
      exact ⟨h.1, nondecr_append_left (b :: t) l₂ (by rw [List.cons_append]; exact h.2)⟩

lemma nondecr_progressValues_take (l : List SseEvent) (k : Nat)
    (h : nondecr (progressValues l) = true) :
    nondecr (progressValues (l.take k)) = true := by
  have hsplit : progressValues l =
      progressValues (l.take k) ++ progressValues (l.drop k) := by
    rw [progressValues, progressValues, progressValues, ← List.filterMap_append,
      List.take_append_drop]
  exact nondecr_append_left _ _ (hsplit ▸ h)

/-! ## Claims -/

/-- C8: validateRequest accepts exactly the payloads whose address is a
string that is non-empty after trimming and whose carriers is a non-empty
array of values among the three valid carrier names; an empty carriers
array is always rejected; and the errors list names each offending field:
the address message when the address offends, the carriers-shape message
when the carriers shape offends, and the invalid-carriers message listing
the offenders when some array entry is outside the enumeration. -/
theorem C8_validateRequest_characterization (a c : JsValue) :
    ((validateRequest a c).isValid = true ↔
      ((∃ s, a = JsValue.str s ∧ jsTrim s ≠ "") ∧
       (∃ xs, c = JsValue.arr xs ∧ xs ≠ [] ∧
         xs.all (fun x => x == JsValue.str "AT&T" || x == JsValue.str "Verizon" ||
           x == JsValue.str "T-Mobile") = true))) ∧
    (validateRequest a (JsValue.arr [])).isValid = false ∧
    (addressBad a = true → addressRequiredMsg ∈ (validateRequest a c).errors) ∧
    (carriersBadShape c = true →
      carriersRequiredMsg ∈ (validateRequest a c).errors) ∧
    (∀ xs, c = JsValue.arr xs → xs ≠ [] →
      xs.any (fun x => !(jsIncludesStr validCarriers x)) = true →
      invalidCarriersMsg (xs.filter (fun x => !(jsIncludesStr validCarriers x))) ∈
        (validateRequest a c).errors) := by
  refine ⟨?_, ?_, ?_, ?_, ?_⟩
  · rw [← addressBad_false_iff]
    cases c <;>
      simp [validateRequest, carriersBadShape, List.length_eq_zero,
        List.filter_eq_nil_iff, List.all_eq_true, jsIncludesStr_validCarriers] <;>
      cases hA : addressBad a <;> simp
    next xs =>
      rcases xs with _ | ⟨x, xs⟩
      · simp
      · simp [ite_eq_right_iff, Nat.pos_iff_ne_zero, List.length_eq_zero,
          List.filter_eq_nil_iff, bool_imp_or_iff]
  · simp [validateRequest, carriersBadShape]
  · intro hA
    simp [validateRequest, hA]
  · intro hC
    cases hA : addressBad a <;> simp [validateRequest, hA, hC]
  · rintro xs rfl hne hbad
    have hshape : carriersBadShape (JsValue.arr xs) = false := by
      simp [carriersBadShape, List.length_eq_zero, hne]
    have hlen : (xs.filter (fun x => !(jsIncludesStr validCarriers x))).length > 0 := by
      rcases List.any_eq_true.mp hbad with ⟨x, hx, hpx⟩
      have : x ∈ xs.filter (fun x => !(jsIncludesStr validCarriers x)) :=
        List.mem_filter.mpr ⟨hx, hpx⟩
      exact List.length_pos.mpr (List.ne_nil_of_mem this)
    cases hA : addressBad a <;>
      simp [validateRequest, hA, hshape, hlen]

/-- Witness for C8 at concrete payloads: a valid payload is accepted, and a
whitespace-only address is reported by the address error. -/
theorem C8_witness :
    (validateRequest (JsValue.str "1 Main St, Springfield")
      (JsValue.arr [JsValue.str "AT&T"])).isValid = true ∧
    addressRequiredMsg ∈
      (validateRequest (JsValue.str "   ") (JsValue.arr [JsValue.str "AT&T"])).errors :=
  ⟨(C8_validateRequest_characterization (JsValue.str "1 Main St, Springfield")
      (JsValue.arr [JsValue.str "AT&T"])).1.mpr
      ⟨⟨"1 Main St, Springfield", rfl, by decide⟩,
       ⟨[JsValue.str "AT&T"], rfl, by simp, by decide⟩⟩,
   (C8_validateRequest_characterization (JsValue.str "   ")
      (JsValue.arr [JsValue.str "AT&T"])).2.2.1 (by decide)⟩

/-- C9: for every input address the sanitised component used in artifact
filenames is at most 50 characters long and consists only of ASCII letters,
digits and underscores. -/
theorem C9_sanitized_address_textsafe (s : String) :
    (sanitizeAddress s).length ≤ 50 ∧
    ((sanitizeAddress s).data.all
      (fun c => isAsciiAlphanumChar c || c == '_')) = true := by
  constructor
  · show (String.mk _).length ≤ 50
    rw [String.length]
    simp only [List.length_take]
    exact Nat.min_le_left _ _
  · rw [List.all_eq_true]
    intro c hc
    have hmem : c ∈ s.data.map
        (fun c => if isAsciiAlphanumChar c then c else '_') :=
      List.mem_of_mem_take hc
    rcases List.mem_map.mp hmem with ⟨c0, -, rfl⟩
    by_cases h : isAsciiAlphanumChar c0 = true
    · simp [h]
    · simp [h]

/-- Witness for C9 at a concrete address with symbols and an overlong tail. -/
theorem C9_witness :
    (sanitizeAddress "1 Main St, Springfield! @#$%^&()=+ extra tail going on and on").length ≤ 50 ∧
    ((sanitizeAddress "1 Main St, Springfield! @#$%^&()=+ extra tail going on and on").data.all
      (fun c => isAsciiAlphanumChar c || c == '_')) = true :=
  C9_sanitized_address_textsafe "1 Main St, Springfield! @#$%^&()=+ extra tail going on and on"

/-- C10: for all integers min and max with min at most max, and every
Math.random sample r with 0 at most r below 1, randomDelay r min max lies
between min and max inclusive. -/
theorem C10_randomDelay_range (min max : Int) (r : ℚ)
    (hmm : min ≤ max) (h0 : 0 ≤ r) (h1 : r < 1) :
    min ≤ randomDelay r min max ∧ randomDelay r min max ≤ max := by
  unfold randomDelay
  have hmq : (min : ℚ) ≤ (max : ℚ) := by exact_mod_cast hmm
  have hn : (0 : ℚ) < (max : ℚ) - (min : ℚ) + 1 := by linarith
  constructor
  · have h2 : (0 : ℚ) ≤ r * ((max : ℚ) - (min : ℚ) + 1) :=
      mul_nonneg h0 (le_of_lt hn)
    have h3 : (0 : Int) ≤ ⌊r * ((max : ℚ) - (min : ℚ) + 1)⌋ :=
      Int.floor_nonneg.mpr h2
    omega
  · have h4 : r * ((max : ℚ) - (min : ℚ) + 1) < (max : ℚ) - (min : ℚ) + 1 := by
      calc r * ((max : ℚ) - (min : ℚ) + 1)
          < 1 * ((max : ℚ) - (min : ℚ) + 1) := by
            exact mul_lt_mul_of_pos_right h1 hn
        _ = (max : ℚ) - (min : ℚ) + 1 := one_mul _
    have h5 : ⌊r * ((max : ℚ) - (min : ℚ) + 1)⌋ < max - min + 1 := by
      apply Int.floor_lt.mpr
      push_cast
      linarith
    omega

/-- Witness for C10 at min 2, max 5, sample one half. -/
theorem C10_witness :
    (2 : Int) ≤ randomDelay (1 / 2) 2 5 ∧ randomDelay (1 / 2) 2 5 ≤ 5 :=
  C10_randomDelay_range 2 5 (1 / 2) (by norm_num) (by norm_num) (by norm_num)

/-- C5 counterexample: in the selectView revision of
services/ooklaHelpers.js, which resolves the view intents of the ROM
workflow, a run whose three attempts all fail performs no mouse click at
all between attempts, so the claimed neutral dismissal click does not
happen for every view-selection intent; the resolver still returns false
after the three attempts. -/
theorem C5_counterexample :
    (selectViewHelpers (fun _ => false)).1 = false ∧
    ((selectViewHelpers (fun _ => false)).2.all (fun a => !(isNeutralClick a))) = true ∧
    attemptsOf (selectViewHelpers (fun _ => false)).2 = [1, 2, 3] := by
  decide

/-- C5 amended: every whole-intent view resolution is retried up to exactly
3 attempts and returns false rather than throwing once the third attempt
fails; between consecutive attempts both revisions perform a 2000 ms
cooldown wait and an Escape dismissal, and the server.js revision used by
the coverage endpoints additionally performs the neutral dismissal click at
point (100, 100); the services/ooklaHelpers.js revision performs no mouse
click between attempts. -/
theorem C5_selectView_retry_policy (succ : Nat → Bool) :
    ((selectViewHelpers succ).1 = (succ 1 || succ 2 || succ 3)) ∧
    ((selectViewServer succ).1 = (succ 1 || succ 2 || succ 3)) ∧
    (attemptsOf (selectViewHelpers succ).2 =
      if succ 1 then [1] else if succ 2 then [1, 2] else [1, 2, 3]) ∧
    (attemptsOf (selectViewServer succ).2 =
      if succ 1 then [1] else if succ 2 then [1, 2] else [1, 2, 3]) ∧
    (succ 1 = false →
      UiAct.wait 2000 ∈ (selectViewServer succ).2 ∧
      UiAct.keyEscape ∈ (selectViewServer succ).2 ∧
      UiAct.mouseClick 100 100 ∈ (selectViewServer succ).2) ∧
    (succ 1 = false →
      UiAct.wait 2000 ∈ (selectViewHelpers succ).2 ∧
      UiAct.keyEscape ∈ (selectViewHelpers succ).2) ∧
    ((selectViewHelpers succ).2.all (fun a => !(isNeutralClick a)) = true) := by
  cases h1 : succ 1 <;> cases h2 : succ 2 <;> cases h3 : succ 3 <;>
    simp [selectViewHelpers, selectViewServer, selectViewLoop, svResetHelpers,
      svResetServer, svSuccessTail, svCatchTail, attemptsOf, isNeutralClick,
      h1, h2, h3]

/-- Witness for C5 at an oracle whose first two attempts fail: the server
revision performs the neutral click between attempts. -/
theorem C5_witness :
    UiAct.mouseClick 100 100 ∈ (selectViewServer (fun i => i == 3)).2 :=
  ((C5_selectView_retry_policy (fun i => i == 3)).2.2.2.2.1 rfl).2.2

/-- C1: when all three optional views are requested, login succeeds and
exactly two of the three view intents resolve, the synchronous run
completes with success true and status 200, returns exactly two artifacts
with count 2, and records exactly one degrade, naming the unresolved
view. -/
theorem C1_two_of_three_views (a timestamp : String)
    (selIndoor selOutdoor selBoth : Bool) (ha : a ≠ "")
    (h2 : (cond selIndoor 1 0) + (cond selOutdoor 1 0) + (cond selBoth 1 0) = 2) :
    ((automateHandler (some a) true true true true selIndoor selOutdoor selBoth
        timestamp).2.1.success = true) ∧
    ((automateHandler (some a) true true true true selIndoor selOutdoor selBoth
        timestamp).2.1.status = 200) ∧
    ((automateHandler (some a) true true true true selIndoor selOutdoor selBoth
        timestamp).2.1.screenshots.length = 2) ∧
    ((automateHandler (some a) true true true true selIndoor selOutdoor selBoth
        timestamp).2.1.count = some 2) ∧
    ((automateHandler (some a) true true true true selIndoor selOutdoor selBoth
        timestamp).2.2.length = 1) ∧
    (selIndoor = false →
      (automateHandler (some a) true true true true selIndoor selOutdoor selBoth
        timestamp).2.2 = [skipMsg "Indoor"]) ∧
    (selOutdoor = false →
      (automateHandler (some a) true true true true selIndoor selOutdoor selBoth
        timestamp).2.2 = [skipMsg "Outdoor"]) ∧
    (selBoth = false →
      (automateHandler (some a) true true true true selIndoor selOutdoor selBoth
        timestamp).2.2 = [skipMsg "Indoor & Outdoor"]) := by
  have hne : (a == "") = false := beq_eq_false_iff_ne.mpr ha
  cases selIndoor <;> cases selOutdoor <;> cases selBoth <;>
    simp_all [automateHandler, captureViews, hne]

/-- Witness for C1 with Indoor and Outdoor resolvable and the combined view
not. -/
theorem C1_witness :
    (automateHandler (some "1 Main St") true true true true true true false
      "T").2.1.count = some 2 ∧
    (automateHandler (some "1 Main St") true true true true true true false
      "T").2.2 = [skipMsg "Indoor & Outdoor"] :=
  ⟨(C1_two_of_three_views "1 Main St" "T" true true false (by decide)
      (by decide)).2.2.2.1,
   (C1_two_of_three_views "1 Main St" "T" true true false (by decide)
      (by decide)).2.2.2.2.2.2.2 rfl⟩

/-- C2: a payload missing the required address is rejected with success
false before any browser session is opened, on all four entry points: the
synchronous coverage handler responds 400 with a trace that launches no
browser; the streaming coverage handler never reaches the launch statement
and emits one terminal error event; the synchronous ROM route fails
validation and responds 400; the streaming ROM route fails validation and
emits one final error event. -/
theorem C2_missing_address_rejected :
    (∀ (loginOk hasIndoor hasOutdoor hasBoth selIndoor selOutdoor selBoth : Bool)
       (ts : String),
      (automateHandler none loginOk hasIndoor hasOutdoor hasBoth selIndoor
        selOutdoor selBoth ts).1 = [ServerAct.respond 400] ∧
      (automateHandler none loginOk hasIndoor hasOutdoor hasBoth selIndoor
        selOutdoor selBoth ts).2.1.status = 400 ∧
      (automateHandler none loginOk hasIndoor hasOutdoor hasBoth selIndoor
        selOutdoor selBoth ts).2.1.success = false ∧
      ((automateHandler none loginOk hasIndoor hasOutdoor hasBoth selIndoor
        selOutdoor selBoth ts).1.all
          (fun x => !(x == ServerAct.launchBrowser))) = true) ∧
    (coverageStreamGuard none =
      (false, coverageStreamMissingAddressEvents) ∧
     (coverageStreamMissingAddressEvents.all
       (fun e => e.status == some "error")) = true) ∧
    (∀ carriers : JsValue,
      (romAutomateGuard JsValue.undef carriers).1 = false ∧
      (romAutomateGuard JsValue.undef carriers).2.status = 400 ∧
      (romAutomateGuard JsValue.undef carriers).2.success = false) ∧
    (∀ carriers : JsValue,
      (romStreamGuard JsValue.undef carriers).1 = false ∧
      ((romStreamGuard JsValue.undef carriers).2.all
        (fun e => e.final == some true && e.success == some false &&
          e.status == some "error")) = true) := by
  refine ⟨?_, ?_, ?_, ?_⟩
  · intro loginOk hasIndoor hasOutdoor hasBoth selIndoor selOutdoor selBoth ts
    simp [automateHandler]
  · constructor
    · rfl
    · decide
  · intro carriers
    simp [romAutomateGuard, validateRequest_undef_invalid]
  · intro carriers
    simp [romStreamGuard, validateRequest_undef_invalid,
      romStreamValidationEvents]

/-- C3: a valid payload whose credentials the target rejects (the page is
still on the login URL) yields status 401 with success false, the error
Login failed which mentions the authentication step, an empty artifact
list, and a trace that closes the browser before responding. -/
theorem C3_auth_failure_aborts (a timestamp : String)
    (hasIndoor hasOutdoor hasBoth selIndoor selOutdoor selBoth : Bool)
    (ha : a ≠ "") :
    ((automateHandler (some a) false hasIndoor hasOutdoor hasBoth selIndoor
        selOutdoor selBoth timestamp).2.1.status = 401) ∧
    ((automateHandler (some a) false hasIndoor hasOutdoor hasBoth selIndoor
        selOutdoor selBoth timestamp).2.1.success = false) ∧
    ((automateHandler (some a) false hasIndoor hasOutdoor hasBoth selIndoor
        selOutdoor selBoth timestamp).2.1.error = some "Login failed") ∧
    ((automateHandler (some a) false hasIndoor hasOutdoor hasBoth selIndoor
        selOutdoor selBoth timestamp).2.1.screenshots = []) ∧
    ((automateHandler (some a) false hasIndoor hasOutdoor hasBoth selIndoor
        selOutdoor selBoth timestamp).1 =
      [ServerAct.launchBrowser, ServerAct.navigateLogin,
       ServerAct.typeCredentials, ServerAct.submitLogin,
       ServerAct.closeBrowser, ServerAct.respond 401]) ∧
    ((automateHandler (some a) false hasIndoor hasOutdoor hasBoth selIndoor
        selOutdoor selBoth timestamp).1.indexOf ServerAct.closeBrowser <
      (automateHandler (some a) false hasIndoor hasOutdoor hasBoth selIndoor
        selOutdoor selBoth timestamp).1.indexOf (ServerAct.respond 401)) ∧
    mentionsAuthentication "Login failed" = true := by
  have hne : (a == "") = false := beq_eq_false_iff_ne.mpr ha
  refine ⟨?_, ?_, ?_, ?_, ?_, ?_, ?_⟩ <;>
    (try simp [automateHandler, hne]) <;> (try decide)

/-- Witness for C3 at a concrete address. -/
theorem C3_witness :
    (automateHandler (some "1 Main St") false true true true true true true
      "T").2.1.status = 401 ∧
    (automateHandler (some "1 Main St") false true true true true true true
      "T").2.1.screenshots = [] :=
  ⟨(C3_auth_failure_aborts "1 Main St" "T" true true true true true true
      (by decide)).1,
   (C3_auth_failure_aborts "1 Main St" "T" true true true true true true
      (by decide)).2.2.2.1⟩

lemma nondecr_coverageProgressFrames (hasIndoor hasOutdoor hasBoth : Bool) :
    nondecr (progressValues
      (coverageProgressFrames hasIndoor hasOutdoor hasBoth)) = true := by
  cases hasIndoor <;> cases hasOutdoor <;> cases hasBoth <;>
    · simp only [coverageProgressFrames, coverageStreamPrelude,
        coverageCaptureEvents, captureEvt, progressEvt, progressValues,
        List.filterMap, List.append_nil, List.nil_append, List.cons_append,
        if_true, if_false, cond]
      norm_num [nondecr]

lemma nondecr_romStreamProgressFrames :
    nondecr (progressValues romStreamProgressFrames) = true := by
  simp only [romStreamProgressFrames, progressEvt, progressValues,
    List.filterMap]
  norm_num [nondecr]

/-- C4 counterexample: a coverage streaming run that throws after five
frames (last progress 20) ends with the terminal error event at progress 0,
so the emitted progress sequence including the terminal event is not
monotonically non-decreasing. -/
theorem C4_counterexample :
    nondecr (progressValues
      (coverageStreamErrorEvents true true false 5 "boom")) = false ∧
    (coverageStreamErrorEvents true true false 5 "boom").getLast? =
      some (progressEvt 0 "boom" "error") := by
  constructor
  · decide
  · decide

/-- C4 amended: the emitted progress values are monotonically non-decreasing
through the terminal event on every successful run of both streaming
endpoints and on the coverage login-rejection path; on a run that fails
with a thrown error, the progress values are non-decreasing up to but
excluding the terminal event, and the terminal error event itself carries
progress 0, which is lower than earlier progress whenever any frame
exceeded 0. -/
theorem C4_progress_monotonicity :
    (∀ (hasIndoor hasOutdoor hasBoth : Bool) (arts : List Artifact) (dur : ℚ),
      nondecr (progressValues (coverageStreamSuccessEvents hasIndoor hasOutdoor
        hasBoth arts dur)) = true) ∧
    (nondecr (progressValues coverageStreamLoginRejectedEvents) = true) ∧
    (∀ (hasIndoor hasOutdoor hasBoth : Bool) (k : Nat),
      nondecr (progressValues ((coverageProgressFrames hasIndoor hasOutdoor
        hasBoth).take k)) = true) ∧
    (∀ (hasIndoor hasOutdoor hasBoth : Bool) (k : Nat) (msg : String),
      (coverageStreamErrorEvents hasIndoor hasOutdoor hasBoth k msg).getLast? =
        some (progressEvt 0 msg "error")) ∧
    (∀ (arts : List Artifact) (dur : ℚ),
      nondecr (progressValues (romStreamSuccessEvents arts dur)) = true) ∧
    (∀ k : Nat,
      nondecr (progressValues (romStreamProgressFrames.take k)) = true) := by
  refine ⟨?_, ?_, ?_, ?_, ?_, ?_⟩
  · intro hasIndoor hasOutdoor hasBoth arts dur
    have h := nondecr_coverageProgressFrames hasIndoor hasOutdoor hasBoth
    simpa [coverageStreamSuccessEvents, progressValues, List.filterMap_append,
      coverageStreamFinalFrame] using h
  · decide
  · intro hasIndoor hasOutdoor hasBoth k
    exact nondecr_progressValues_take _ _
      (nondecr_coverageProgressFrames hasIndoor hasOutdoor hasBoth)
  · intro hasIndoor hasOutdoor hasBoth k msg
    rw [coverageStreamErrorEvents]
    exact List.getLast?_concat _
  · intro arts dur
    have h : progressValues (romStreamSuccessEvents arts dur) =
        [5, 10, 15, 22, 28, 35, 45, 55, 65, 70, 75, 85, 100] := by
      simp [romStreamSuccessEvents, romStreamProgressFrames, romStreamFinalEvent,
        progressValues, progressEvt]
    rw [h]
    decide
  · intro k
    exact nondecr_progressValues_take _ _ nondecr_romStreamProgressFrames

/-- C6 counterexample: in a successful coverage streaming run the final
event (the result frame) carries no status key, so not every emitted event
carries progress, step and status; and in a failed coverage streaming run
the terminal event carries no final marker, so the final event of a failed
run does not carry final true with the result. -/
theorem C6_counterexample :
    ((coverageStreamSuccessEvents true false false [] 0).all
      (fun e => e.status.isSome)) = false ∧
    ((coverageStreamErrorEvents true false false 2 "x").getLast?.map
      (fun e => e.final)) = some none := by
  constructor
  · decide
  · decide

/-- C6 amended: every progress frame of both streams carries progress, step
and status (status processing on the ROM stream, in_progress, success or
error on the coverage stream); the final event of a successful ROM run
carries progress, step, final true and the full result but no status key;
the final event of a successful coverage run carries final true and the
full result but no progress, step or status keys; the terminal event of a
failed coverage run is a progress frame with status error carrying the
message in step, without final marker or result; a failed ROM run ends
with final-true error events, the service frame without a status key and
the route frame with status error. -/
theorem C6_stream_event_shape :
    (∀ (arts : List Artifact) (dur : ℚ),
      ((romStreamSuccessEvents arts dur).all
        (fun e => e.progress.isSome && e.step.isSome)) = true) ∧
    ((romStreamProgressFrames.all
      (fun e => e.status == some "processing")) = true) ∧
    (∀ (arts : List Artifact) (dur : ℚ),
      (romStreamFinalEvent arts dur).final = some true ∧
      (romStreamFinalEvent arts dur).success = some true ∧
      (romStreamFinalEvent arts dur).count = some arts.length ∧
      (romStreamFinalEvent arts dur).screenshots = some arts ∧
      (romStreamFinalEvent arts dur).status = none) ∧
    (∀ (hasIndoor hasOutdoor hasBoth : Bool),
      ((coverageProgressFrames hasIndoor hasOutdoor hasBoth).all
        (fun e => e.progress.isSome && e.step.isSome && e.status.isSome)) = true) ∧
    (∀ (arts : List Artifact) (dur : ℚ),
      (coverageStreamFinalFrame arts dur).final = some true ∧
      (coverageStreamFinalFrame arts dur).success = some true ∧
      (coverageStreamFinalFrame arts dur).screenshots = some arts ∧
      (coverageStreamFinalFrame arts dur).progress = none ∧
      (coverageStreamFinalFrame arts dur).step = none ∧
      (coverageStreamFinalFrame arts dur).status = none) ∧
    (∀ (hasIndoor hasOutdoor hasBoth : Bool) (k : Nat) (msg : String),
      (coverageStreamErrorEvents hasIndoor hasOutdoor hasBoth k msg).getLast? =
        some (progressEvt 0 msg "error") ∧
      (progressEvt 0 msg "error").final = none ∧
      (progressEvt 0 msg "error").status = some "error") ∧
    (∀ (k : Nat) (msg : String),
      (romStreamErrorEvents k msg).getLast? = some (romRouteErrorEvent msg) ∧
      (romServiceErrorEvent msg).status = none ∧
      (romServiceErrorEvent msg).final = some true ∧
      (romRouteErrorEvent msg).final = some true ∧
      (romRouteErrorEvent msg).status = some "error") := by
  refine ⟨?_, ?_, ?_, ?_, ?_, ?_, ?_⟩
  · intro arts dur
    rw [romStreamSuccessEvents, List.all_append, Bool.and_eq_true]
    refine ⟨by decide, by simp [romStreamFinalEvent]⟩
  · decide
  · intro arts dur
    exact ⟨rfl, rfl, rfl, rfl, rfl⟩
  · intro hasIndoor hasOutdoor hasBoth
    cases hasIndoor <;> cases hasOutdoor <;> cases hasBoth <;> decide
  · intro arts dur
    exact ⟨rfl, rfl, rfl, rfl, rfl, rfl⟩
  · intro hasIndoor hasOutdoor hasBoth k msg
    refine ⟨?_, rfl, rfl⟩
    rw [coverageStreamErrorEvents]
    exact List.getLast?_concat _
  · intro k msg
    refine ⟨?_, rfl, rfl, rfl, rfl⟩
    have hsplit : romStreamProgressFrames.take k ++
        [romServiceErrorEvent msg, romRouteErrorEvent msg] =
        (romStreamProgressFrames.take k ++ [romServiceErrorEvent msg]) ++
          [romRouteErrorEvent msg] := by
      simp
    rw [romStreamErrorEvents, hsplit]
    exact List.getLast?_concat _

/-- C7 counterexample: the synchronous success response carries no jobId
key, no registered route path mentions a job identifier or a path
parameter, and the only GET routes are the static health and catalog
endpoints, so no submit-returns-jobId interface and no polling lookup by
job id exist in the code. -/
theorem C7_counterexample :
    (automateSuccessResponseKeys.all (fun k => !(k == "jobId"))) = true ∧
    (registeredRoutes.all
      (fun r => !(strMentionsSub r.2 "job") && !(strMentionsSub r.2 ":"))) = true ∧
    ((registeredRoutes.filter (fun r => r.1 == "GET")).map (fun r => r.2) =
      ["/health", "/", "/api/rom/health"]) := by
  refine ⟨?_, ?_, ?_⟩ <;> decide

/-- C7 amended: the interface is request-scoped, not job-addressed: the
synchronous handler responds only as the last action of its run (there is
no early jobId response and nothing keeps updating afterwards), the success
body holds exactly success, screenshots, duration and count, and no
registered route path mentions a job identifier. -/
theorem C7_request_scoped_interface :
    (∀ (address : Option String)
       (loginOk hasIndoor hasOutdoor hasBoth selIndoor selOutdoor selBoth : Bool)
       (ts : String),
      (automateHandler address loginOk hasIndoor hasOutdoor hasBoth selIndoor
        selOutdoor selBoth ts).1.getLast? =
        some (ServerAct.respond
          (automateHandler address loginOk hasIndoor hasOutdoor hasBoth selIndoor
            selOutdoor selBoth ts).2.1.status)) ∧
    ((registeredRoutes.all (fun r => !(strMentionsSub r.2 "job"))) = true) ∧
    (automateSuccessResponseKeys = ["success", "screenshots", "duration", "count"]) := by
  refine ⟨?_, by decide, rfl⟩
  intro address loginOk hasIndoor hasOutdoor hasBoth selIndoor selOutdoor selBoth ts
  cases address with
  | none => rfl
  | some a =>
      cases hA : (a == "") <;> cases loginOk <;>
        simp [automateHandler, hA, captureViews]

end SalesHub
